import Mathlib

/-!
Verification of the tf-branch-deploy core against its specification.

The development shallowly embeds the Python modules `artifacts.py`, `hooks.py`,
`config.py`, `executor.py` and the apply/plan steps of `cli.py`:

* the filesystem is an association list from path strings to file contents;
* the SHA-256 routine of `hashlib` (an external library) is abstracted as an
  explicit function parameter `hash : FileContent → String`; the source streams
  the file through the hash in 8192-byte chunks, which computes the digest of
  the whole content, so the model hashes the content in one step;
* a Python function that can raise is embedded as an `Option`-returning
  function, `none` standing for an exception escaping the function;
* subprocess execution is an oracle argument mapping the invocation to its
  outcome (normal completion with an exit code, timeout, or a raised
  exception), mirroring the three branches of the `try/except` in the source.
-/

namespace TfBranchDeploy

/-! ## artifacts.py -/

/-- Bytes of a file, as natural numbers below 256 in the intended reading. -/
abbrev FileContent := List Nat

/-- The filesystem: an association list from paths to file contents.
A path is bound at most once in the intended reading; lookups take the
first binding, as `open` would resolve the path. -/
abbrev FS := List (String × FileContent)

/-- A path exists on the filesystem iff it has a bound content
(models `Path.exists`). -/
def FS.pathExists (fs : FS) (p : String) : Bool :=
  (fs.lookup p).isSome

/-- Embeds `artifacts.calculate_checksum`: opens the file (raising, i.e.
`none`, when the path is missing) and feeds its bytes through the hash,
returning the hex digest.  The 8192-byte chunking of the source is
digest-equivalent to hashing the whole content at once. -/
def calculate_checksum (hash : FileContent → String) (fs : FS) (p : String) :
    Option String :=
  (fs.lookup p).map hash

/-- Embeds `artifacts.verify_checksum`: recomputes the checksum and compares
with the expected hex string.  The exception of `calculate_checksum` on a
missing file propagates (the source has no `try`), hence the `Option`. -/
def verify_checksum (hash : FileContent → String) (fs : FS) (p : String)
    (expected : String) : Option Bool :=
  (calculate_checksum hash fs p).map (fun actual => actual == expected)

/-- Python string slicing `s[:n]`: the first `n` characters, or all of the
string when it is shorter. -/
def strTake (s : String) (n : Nat) : String :=
  ⟨s.data.take n⟩

/-- Embeds `artifacts.generate_artifact_name`, the f-string
`tfplan-{environment}-{sha[:8]}.tfplan`. -/
def generate_artifact_name (environment sha : String) : String :=
  "tfplan-" ++ environment ++ "-" ++ strTake sha 8 ++ ".tfplan"

/-! ## hooks.py — data model -/

/-- Embeds the `HookPhase` enum. -/
inductive HookPhase where
  | preInit
  | postInit
  | prePlan
  | postPlan
  | postApply
deriving DecidableEq

/-- The string value of a `HookPhase` member (`phase.value`). -/
def HookPhase.val : HookPhase → String
  | .preInit => "pre-init"
  | .postInit => "post-init"
  | .prePlan => "pre-plan"
  | .postPlan => "post-plan"
  | .postApply => "post-apply"

/-- Embeds the `HookResult` dataclass.  `exit_code` is an `Int` because a
Python `returncode` is negative when the process dies on a signal. -/
structure HookResult where
  name : String
  phase : HookPhase
  exit_code : Int
  stdout : String
  stderr : String
  timed_out : Bool := false
  skipped : Bool := false
  skip_reason : Option String := none
deriving DecidableEq

/-- Embeds the `HookResult.success` property. -/
def HookResult.success (r : HookResult) : Bool :=
  r.exit_code == 0 && !r.timed_out

/-- Embeds the `HookResult.failed` property. -/
def HookResult.failed (r : HookResult) : Bool :=
  !r.success && !r.skipped

/-- Embeds the `HookContext` dataclass.  `working_dir` is kept as the string
the source renders with `str(...)`. -/
structure HookContext where
  phase : HookPhase
  environment : String
  operation : String
  is_rollback : Bool
  sha : String
  ref : String
  actor : String
  pr_number : String
  params : String
  working_dir : String
  is_production : Bool
  plan_file : Option String := none
  has_changes : Option Bool := none
deriving DecidableEq

/-- Python `str(b).lower()` on a boolean: `"true"` or `"false"`. -/
def pyBoolStr (b : Bool) : String :=
  if b then "true" else "false"

/-- Embeds `HookContext.to_env`.  A Python dict preserves insertion order, so
the mapping is an association list in the order the source inserts the keys;
the two conditional keys are appended only when their field is set. -/
def HookContext.to_env (c : HookContext) : List (String × String) :=
  [("TF_BD_PHASE", c.phase.val),
   ("TF_BD_ENVIRONMENT", c.environment),
   ("TF_BD_OPERATION", c.operation),
   ("TF_BD_IS_ROLLBACK", pyBoolStr c.is_rollback),
   ("TF_BD_SHA", c.sha),
   ("TF_BD_REF", c.ref),
   ("TF_BD_ACTOR", c.actor),
   ("TF_BD_PR_NUMBER", c.pr_number),
   ("TF_BD_PARAMS", c.params),
   ("TF_BD_WORKING_DIR", c.working_dir),
   ("TF_BD_IS_PRODUCTION", pyBoolStr c.is_production)]
  ++ (match c.plan_file with
      | some p => [("TF_BD_PLAN_FILE", p)]
      | none => [])
  ++ (match c.has_changes with
      | some b => [("TF_BD_HAS_CHANGES", pyBoolStr b)]
      | none => [])

/-- Modelled from the spec: the `Hook` configuration record is declared in the
configuration module, which is absent from the provided sources (only its
importers and tests are present).  Fields and defaults follow §3 of the spec:
name, shell command, condition, `fail_on_error` (default true), timeout in
seconds (default 600), optional env overrides and working-directory override.
`HookCondition` is a string-valued enum in the source, so the condition is
kept as its string value, which is what the hook runner compares against and
interpolates into skip reasons. -/
structure Hook where
  name : String
  run : String
  condition : String
  fail_on_error : Bool := true
  timeout : Nat := 600
  env : List (String × String) := []
  working_directory : Option String := none
deriving DecidableEq

/-- Modelled from the spec: the `HooksConfig` record holding one hook list per
phase, as used by `HookRunner._get_hooks_for_phase` and constructed in the
tests. -/
structure HooksConfig where
  pre_init : List Hook := []
  post_init : List Hook := []
  pre_plan : List Hook := []
  post_plan : List Hook := []
  post_apply : List Hook := []
deriving DecidableEq

/-! ## hooks.py — runner -/

/-- Outcome of one `subprocess.run` call on a hook command, as distinguished
by the `try/except` in `HookRunner._run_hook`: normal completion, a
`TimeoutExpired` carrying any partial stdout, or any other raised exception
carrying its message. -/
inductive ExecOutcome where
  | completed (returncode : Int) (stdout stderr : String)
  | timedOut (partialStdout : String)
  | raised (msg : String)
deriving DecidableEq

/-- Embeds the result construction of `HookRunner._run_hook` over the
subprocess outcome: the three `return HookResult(...)` branches of the
`try/except`.  Total by construction — no branch propagates an exception. -/
def runHookOutcome (h : Hook) (phase : HookPhase) (o : ExecOutcome) : HookResult :=
  match o with
  | .completed rc out err =>
      { name := h.name, phase := phase, exit_code := rc, stdout := out, stderr := err }
  | .timedOut out =>
      { name := h.name, phase := phase, exit_code := 124, stdout := out,
        stderr := "Hook timed out after " ++ toString h.timeout ++ " seconds",
        timed_out := true }
  | .raised msg =>
      { name := h.name, phase := phase, exit_code := 1, stdout := "", stderr := msg }

/-- Embeds `HookRunner._run_hook` with the subprocess abstracted as an oracle
from the hook (whose command, env and working directory determine the call)
to its outcome. -/
def runHook (oracle : Hook → ExecOutcome) (h : Hook) (phase : HookPhase) : HookResult :=
  runHookOutcome h phase (oracle h)

/-- Embeds `HookRunner._should_run_hook`.  The source compares the
string-valued `HookCondition` enum; the final branch returns `True` for any
other condition (fail open). -/
def shouldRun (h : Hook) (ctx : HookContext) : Bool :=
  if h.condition == "always" then true
  else if h.condition == "plan-only" then ctx.operation == "plan"
  else if h.condition == "apply-only" then
    ctx.operation == "apply" || ctx.operation == "rollback"
  else if h.condition == "rollback-only" then ctx.is_rollback
  else true

/-- The skipped `HookResult` that `run_phase` appends when the condition of a
hook is not met, with the skip reason interpolated as in the source. -/
def skipResult (h : Hook) (phase : HookPhase) (ctx : HookContext) : HookResult :=
  { name := h.name, phase := phase, exit_code := 0, stdout := "", stderr := "",
    skipped := true,
    skip_reason := some ("Condition \x27" ++ h.condition
      ++ "\x27 not met for operation \x27" ++ ctx.operation ++ "\x27") }

/-- Embeds the per-hook loop of `HookRunner.run_phase`: a skipped hook
contributes its skip result and the loop continues; an executed hook
contributes its result, and the loop `break`s right after appending it when
the result failed and the hook is `fail_on_error`. -/
def runPhaseLoop (oracle : Hook → ExecOutcome) (phase : HookPhase)
    (ctx : HookContext) : List Hook → List HookResult
  | [] => []
  | h :: rest =>
    if shouldRun h ctx then
      let r := runHook oracle h phase
      if r.failed && h.fail_on_error then [r]
      else r :: runPhaseLoop oracle phase ctx rest
    else
      skipResult h phase ctx :: runPhaseLoop oracle phase ctx rest

/-- Embeds `HookRunner._get_hooks_for_phase` (the `phase_map` dispatch). -/
def getHooksForPhase (cfg : HooksConfig) : HookPhase → List Hook
  | .preInit => cfg.pre_init
  | .postInit => cfg.post_init
  | .prePlan => cfg.pre_plan
  | .postPlan => cfg.post_plan
  | .postApply => cfg.post_apply

/-- Embeds `HookRunner.run_phase`: empty when no hooks config, otherwise the
loop over the hooks of the phase (an empty hook list returns `[]` early,
which coincides with the loop on `[]`). -/
def run_phase (oracle : Hook → ExecOutcome) (cfg : Option HooksConfig)
    (phase : HookPhase) (ctx : HookContext) : List HookResult :=
  match cfg with
  | none => []
  | some hc => runPhaseLoop oracle phase ctx (getHooksForPhase hc phase)

/-- A hook cuts the phase short exactly when it runs, its result fails and it
is `fail_on_error` — the `break` condition of `run_phase`. -/
def blocks (oracle : Hook → ExecOutcome) (phase : HookPhase) (ctx : HookContext)
    (h : Hook) : Bool :=
  shouldRun h ctx && (runHook oracle h phase).failed && h.fail_on_error

/-! ## config.py — argument resolution -/

/-- Embeds the `ArgsConfig` model (`inherit` defaults to true, `args` to the
empty list). -/
structure ArgsConfig where
  inherit : Bool := true
  args : List String := []
deriving DecidableEq

/-- Embeds the `PathsConfig` model (`inherit` defaults to true, `paths` to the
empty list). -/
structure PathsConfig where
  inherit : Bool := true
  paths : List String := []
deriving DecidableEq

/-- Embeds the `EnvironmentConfig` model: the five optional overridable
categories plus the working directory. -/
structure EnvironmentConfig where
  working_directory : String := "."
  var_files : Option PathsConfig := none
  backend_configs : Option PathsConfig := none
  plan_args : Option ArgsConfig := none
  apply_args : Option ArgsConfig := none
  init_args : Option ArgsConfig := none
deriving DecidableEq

/-- Embeds the `DefaultsConfig` model: the same five optional categories. -/
structure DefaultsConfig where
  var_files : Option PathsConfig := none
  backend_configs : Option PathsConfig := none
  plan_args : Option ArgsConfig := none
  apply_args : Option ArgsConfig := none
  init_args : Option ArgsConfig := none
deriving DecidableEq

/-- Embeds the root `TerraformBranchDeployConfig` model.  The `environments`
dict is an association list (Python dicts preserve insertion order). -/
structure TerraformBranchDeployConfig where
  default_environment : String
  production_environments : List String
  environments : List (String × EnvironmentConfig)
  defaults : Option DefaultsConfig := none
  stable_branch : String := "main"
deriving DecidableEq

namespace TerraformBranchDeployConfig

/-- Embeds `get_environment`: the `ValueError` on an unknown name is `none`. -/
def get_environment (c : TerraformBranchDeployConfig) (name : String) :
    Option EnvironmentConfig :=
  c.environments.lookup name

/-- Embeds `is_production`. -/
def is_production (c : TerraformBranchDeployConfig) (environment : String) : Bool :=
  c.production_environments.contains environment

/-- Embeds `resolve_var_files`: `should_inherit` is the category's own flag
when the environment specifies the category and true otherwise; the defaults
list is extended first (when inheriting and defaults carry the category),
then the environment-specific list. -/
def resolve_var_files (c : TerraformBranchDeployConfig) (environment : String) :
    Option (List String) :=
  match c.get_environment environment with
  | none => none
  | some envCfg =>
    let shouldInherit :=
      match envCfg.var_files with
      | some pc => pc.inherit
      | none => true
    let fromDefaults :=
      match c.defaults with
      | some d =>
        match d.var_files with
        | some pc => if shouldInherit then pc.paths else []
        | none => []
      | none => []
    let fromEnv :=
      match envCfg.var_files with
      | some pc => pc.paths
      | none => []
    some (fromDefaults ++ fromEnv)

/-- Embeds `resolve_backend_configs`, same shape as `resolve_var_files`. -/
def resolve_backend_configs (c : TerraformBranchDeployConfig)
    (environment : String) : Option (List String) :=
  match c.get_environment environment with
  | none => none
  | some envCfg =>
    let shouldInherit :=
      match envCfg.backend_configs with
      | some pc => pc.inherit
      | none => true
    let fromDefaults :=
      match c.defaults with
      | some d =>
        match d.backend_configs with
        | some pc => if shouldInherit then pc.paths else []
        | none => []
      | none => []
    let fromEnv :=
      match envCfg.backend_configs with
      | some pc => pc.paths
      | none => []
    some (fromDefaults ++ fromEnv)

end TerraformBranchDeployConfig

/-- The `arg_type` string of `resolve_args` ranges over the three argument
categories; the string selects a field via `getattr`. -/
inductive ArgType where
  | plan_args
  | apply_args
  | init_args
deriving DecidableEq

/-- The field selected by `getattr(env_config, arg_type)`. -/
def EnvironmentConfig.argsOf (e : EnvironmentConfig) : ArgType → Option ArgsConfig
  | .plan_args => e.plan_args
  | .apply_args => e.apply_args
  | .init_args => e.init_args

/-- The field selected by `getattr(self.defaults, arg_type)`. -/
def DefaultsConfig.argsOf (d : DefaultsConfig) : ArgType → Option ArgsConfig
  | .plan_args => d.plan_args
  | .apply_args => d.apply_args
  | .init_args => d.init_args

/-- Embeds `TerraformBranchDeployConfig.resolve_args`: `default_args` is
`None` when `defaults` is absent; `should_inherit` comes from the
environment's own category when present; the defaults' `args` are extended
first (when inheriting and `default_args` is set), then the environment's. -/
def TerraformBranchDeployConfig.resolve_args (c : TerraformBranchDeployConfig)
    (environment : String) (argType : ArgType) : Option (List String) :=
  match c.get_environment environment with
  | none => none
  | some envCfg =>
    let envArgs := envCfg.argsOf argType
    let defaultArgs :=
      match c.defaults with
      | some d => d.argsOf argType
      | none => none
    let shouldInherit :=
      match envArgs with
      | some a => a.inherit
      | none => true
    let fromDefaults :=
      match defaultArgs with
      | some a => if shouldInherit then a.args else []
      | none => []
    let fromEnv :=
      match envArgs with
      | some a => a.args
      | none => []
    some (fromDefaults ++ fromEnv)

/-- The resolution rule in the words of the spec, for one category: the
result is the defaults list — included exactly when `inherit` is true for
this category in this environment, where `inherit` defaults to true when the
environment omits the category and is the category's own flag when it
specifies it — followed by the environment-specific list, in order.  The
category is presented as the optional `(inherit, items)` pair of the
environment and the optional defaults items list. -/
def specResolve (defaultItems : Option (List String))
    (envCategory : Option (Bool × List String)) : List String :=
  let inheritFlag :=
    match envCategory with
    | some c => c.1
    | none => true
  (if inheritFlag then defaultItems.getD [] else [])
    ++ (match envCategory with
        | some c => c.2
        | none => [])

/-! ## executor.py -/

/-- Raw outcome of the terraform subprocess run by `_run_command` (or wrapped
by tfcmt, which forwards terraform's exit status): exit code and captured
output. -/
structure TfRun where
  exit_code : Int
  stdout : String
  stderr : String
deriving DecidableEq

/-- Embeds the `TerraformExecutor` dataclass fields the plan/apply paths
read. -/
structure TerraformExecutor where
  working_directory : String
  var_files : List String := []
  backend_configs : List String := []
  init_args : List String := []
  plan_args : List String := []
  apply_args : List String := []
deriving DecidableEq

/-- One `-var-file <path>` flag pair per resolved var-file, in order. -/
def varFileFlags (varFiles : List String) : List String :=
  varFiles.flatMap (fun v => ["-var-file", v])

/-- Embeds the `PlanResult` dataclass (a `CommandResult` plus plan fields). -/
structure PlanResult where
  exit_code : Int
  stdout : String
  stderr : String
  command : List String
  has_changes : Bool := false
  plan_file : Option String := none
  checksum : Option String := none
deriving DecidableEq

/-- Embeds the inherited `CommandResult.success` property on `PlanResult`. -/
def PlanResult.success (r : PlanResult) : Bool :=
  r.exit_code == 0

/-- Embeds the `ApplyResult` dataclass (a bare `CommandResult`). -/
structure ApplyResult where
  exit_code : Int
  stdout : String
  stderr : String
  command : List String
deriving DecidableEq

/-- Embeds the inherited `CommandResult.success` property on `ApplyResult`. -/
def ApplyResult.success (r : ApplyResult) : Bool :=
  r.exit_code == 0

/-- The argument vector built by `TerraformExecutor.plan` before running. -/
def planCmd (ex : TerraformExecutor) (outFile : String) : List String :=
  ["terraform", "plan", "-input=false", "-detailed-exitcode"]
    ++ varFileFlags ex.var_files ++ ["-out", outFile] ++ ex.plan_args

/-- Embeds `TerraformExecutor.plan` after the subprocess returned `raw`:
`has_changes` iff the raw exit code is 2, success iff it is 0 or 2; the
result's exit code is rewritten to 0 on success; the checksum is computed
over `out_file` iff it exists on the post-run filesystem `fs`, and
`plan_file` is set under the same condition. -/
def planModel (hash : FileContent → String) (fs : FS) (ex : TerraformExecutor)
    (outFile : String) (raw : TfRun) : PlanResult :=
  let hasChanges := raw.exit_code == 2
  let success := raw.exit_code == 0 || raw.exit_code == 2
  { exit_code := if success then 0 else raw.exit_code,
    stdout := raw.stdout,
    stderr := raw.stderr,
    command := planCmd ex outFile,
    has_changes := hasChanges,
    plan_file := if fs.pathExists outFile then some outFile else none,
    checksum := (fs.lookup outFile).map hash }

/-- The argument vector built by `TerraformExecutor.apply`: always
`terraform apply -input=false -auto-approve`; then the plan file alone when
one is supplied and exists, and otherwise the var-file flags followed by the
resolved apply arguments. -/
def applyCmd (ex : TerraformExecutor) (planFile : Option String) (fs : FS) :
    List String :=
  let base := ["terraform", "apply", "-input=false", "-auto-approve"]
  match planFile with
  | some p =>
    if fs.pathExists p then base ++ [p]
    else base ++ varFileFlags ex.var_files ++ ex.apply_args
  | none => base ++ varFileFlags ex.var_files ++ ex.apply_args

/-- Embeds `TerraformExecutor.apply` after the subprocess returned `raw`. -/
def applyModel (ex : TerraformExecutor) (planFile : Option String) (fs : FS)
    (raw : TfRun) : ApplyResult :=
  { exit_code := raw.exit_code, stdout := raw.stdout, stderr := raw.stderr,
    command := applyCmd ex planFile fs }

/-! ## cli.py — plan/apply steps -/

/-- Embeds `cli.format_error_for_comment`: the message, then optional detail
and logs-link and blockquoted-suggestion blocks, each preceded by a blank
line, joined with newlines. -/
def format_error_for_comment (message : String) (details : Option String)
    (suggestion : Option String) (logsUrl : Option String) : String :=
  String.intercalate "\n"
    ([message]
      ++ (match details with
          | some d => ["", d]
          | none => [])
      ++ (match logsUrl with
          | some u => ["", "📋 [View workflow logs](" ++ u ++ ")"]
          | none => [])
      ++ (match suggestion with
          | some s => ["", "> " ++ s]
          | none => []))

/-- `working_dir / filename` of `pathlib`: a slash-joined path. -/
def joinPath (dir name : String) : String :=
  dir ++ "/" ++ name

/-- Python `str.lower()` restricted to ASCII letters, which is all the
compared environment-variable values (`"true"`/`"false"`) contain. -/
def pyLower (s : String) : String :=
  ⟨s.data.map (fun c =>
    if 65 ≤ c.toNat ∧ c.toNat ≤ 90 then Char.ofNat (c.toNat + 32) else c)⟩

/-- `Path(p).name`: the final path component. -/
def pathBasename (p : String) : String :=
  (p.splitOn "/").getLastD p

/-- Observable outcome of an apply-side CLI step: the terraform invocations
it started (each as the argument vector handed to the executor), the process
exit (`none` = normal return, `some k` = exit with code `k`, from
`typer.Exit` or an uncaught exception), and the `failure_reason` GitHub
output when one was set. -/
structure CliOutcome where
  commands : List (List String) := []
  exitCode : Option Nat := none
  failureReason : Option String := none
deriving DecidableEq

/-- The plan filename built inline by `cli._handle_plan`:
`f"tfplan-{environment}-{sha[:8]}.tfplan"`. -/
def handlePlanPlanFile (environment sha : String) : String :=
  "tfplan-" ++ environment ++ "-" ++ strTake sha 8 ++ ".tfplan"

/-- The plan filename built inline by `cli._handle_apply`:
`f"tfplan-{environment}-{sha[:8]}.tfplan"`. -/
def handleApplyPlanFilename (environment sha : String) : String :=
  "tfplan-" ++ environment ++ "-" ++ strTake sha 8 ++ ".tfplan"

/-- The checksum-mismatch failure reason `cli._apply_with_plan` posts. -/
def checksumMismatchMsg (tfbdEnvironment : String) : String :=
  format_error_for_comment
    ("Security validation failed: Plan file checksum mismatch. The plan file\x27s checksum does not match the expected value, which could indicate tampering or corruption.")
    none
    (some ("Create a fresh plan by running `.plan to " ++ tfbdEnvironment ++ "`"))
    none

/-- The apply-failure reason `cli._apply_with_plan` posts. -/
def applyFailedMsg (tfbdEnvironment logsUrl : String) : String :=
  format_error_for_comment
    ("Terraform apply failed. The `terraform apply` command exited with an error after applying the plan.")
    none
    (some ("Identify the root cause and create a new plan with `.plan to "
      ++ tfbdEnvironment ++ "`"))
    (some logsUrl)

/-- The rollback-apply-failure reason `cli._handle_apply` posts. -/
def rollbackFailedMsg (logsUrl : String) : String :=
  format_error_for_comment
    ("Rollback apply failed. Terraform encountered an error applying the stable branch state.")
    none
    (some ("Ensure the `main` branch has valid Terraform configuration and remote state is accessible"))
    (some logsUrl)

/-- The missing-plan failure reason `cli._handle_apply` posts, with the
guidance to run `.plan` first. -/
def noPlanMsg (environment sha : String) : String :=
  format_error_for_comment
    ("No plan file found for this commit. You attempted to apply changes, but no saved plan exists for commit `" ++ strTake sha 8 ++ "`.")
    (some ("- Run `.plan to " ++ environment ++ "` to create a plan\n- For rollback to stable: `.apply main to " ++ environment ++ "`"))
    (some ("Run `.plan to " ++ environment ++ "` first, then `.apply to "
      ++ environment ++ "`"))
    none

/-- Embeds `cli._apply_with_plan`.  `tfbdPlanChecksum` and `tfbdEnvironment`
are the `TF_BD_PLAN_CHECKSUM` / `TF_BD_ENVIRONMENT` environment variables
(the latter defaulting to `"dev"`); `logsUrl` is the workflow-logs URL the
source assembles from the ambient GitHub variables; `raw` is the outcome of
the terraform apply subprocess if one is started.  When a checksum is
expected, a `verify_checksum` mismatch exits with code 1 before any apply
(`typer.Exit(1)` with the security failure reason); a `verify_checksum`
exception on a missing file (impossible on the caller's path, which checked
existence) escapes `main` and also terminates with exit code 1, with no
apply started and no failure reason set.  Otherwise the executor applies the
basename of the plan file. -/
def applyWithPlan (hash : FileContent → String) (fs : FS)
    (ex : TerraformExecutor) (planFilePath : String)
    (tfbdPlanChecksum : Option String) (tfbdEnvironment : Option String)
    (logsUrl : String) (raw : TfRun) : CliOutcome :=
  let env := tfbdEnvironment.getD "dev"
  let doApply : CliOutcome :=
    let result := applyModel ex (some (pathBasename planFilePath)) fs raw
    if result.success then
      { commands := [result.command] }
    else
      { commands := [result.command], exitCode := some 1,
        failureReason := some (applyFailedMsg env logsUrl) }
  match tfbdPlanChecksum with
  | some expected =>
    match verify_checksum hash fs planFilePath expected with
    | none => { exitCode := some 1 }
    | some false =>
      { exitCode := some 1, failureReason := some (checksumMismatchMsg env) }
    | some true => doApply
  | none => doApply

/-- Embeds `cli._handle_apply`.  `tfbdIsRollback` is the `TF_BD_IS_ROLLBACK`
environment variable (defaulting to `"false"`, compared lowercased against
`"true"`).  When the working-directory-relative plan file exists, control
passes to `_apply_with_plan`; otherwise a rollback applies directly (resolved
var-files and apply args) and a non-rollback exits with the run-plan-first
guidance, starting no apply. -/
def handleApply (hash : FileContent → String) (fs : FS)
    (ex : TerraformExecutor) (environment sha workingDir : String)
    (tfbdIsRollback : Option String) (tfbdPlanChecksum : Option String)
    (tfbdEnvironment : Option String) (logsUrl : String) (raw : TfRun) :
    CliOutcome :=
  let planFilename := handleApplyPlanFilename environment sha
  let planFile := joinPath workingDir planFilename
  let isRollback := pyLower (tfbdIsRollback.getD "false") == "true"
  if fs.pathExists planFile then
    applyWithPlan hash fs ex planFile tfbdPlanChecksum tfbdEnvironment logsUrl raw
  else if isRollback then
    let result := applyModel ex none fs raw
    if result.success then
      { commands := [result.command] }
    else
      { commands := [result.command], exitCode := some 1,
        failureReason := some (rollbackFailedMsg logsUrl) }
  else
    { exitCode := some 1, failureReason := some (noPlanMsg environment sha) }

/-! ## Theorems -/

/-- Strings shorter than `n` are unchanged by the slice `s[:n]`. -/
theorem strTake_of_lt (s : String) (n : Nat) (h : s.length < n) :
    strTake s n = s := by
  cases s with
  | mk data =>
    simp [String.length] at h
    simp [strTake, List.take_of_length_le (Nat.le_of_lt h)]

/-- C10: the plan filename built by `_handle_plan`, the filename looked up by
`_handle_apply`, and `generate_artifact_name` all equal
`tfplan-{environment}-{sha[:8]}.tfplan`, with the full sha used when it has
fewer than 8 characters, so a plan artifact written for an
(environment, sha) pair is located by a later apply for the same pair
relative to the same working directory. -/
theorem c10_plan_filename_agreement (environment sha : String) :
    handlePlanPlanFile environment sha = generate_artifact_name environment sha
    ∧ handleApplyPlanFilename environment sha
        = generate_artifact_name environment sha
    ∧ generate_artifact_name environment sha
        = "tfplan-" ++ environment ++ "-" ++ strTake sha 8 ++ ".tfplan"
    ∧ (sha.length < 8 →
        generate_artifact_name environment sha
          = "tfplan-" ++ environment ++ "-" ++ sha ++ ".tfplan") := by
  refine ⟨rfl, rfl, rfl, fun h => ?_⟩
  rw [generate_artifact_name, strTake_of_lt sha 8 h]

/-- Witness for C10 at environment `prod` and the 15-character sha of the
spec's example (8 characters kept) and at a 3-character sha (kept whole). -/
theorem c10_plan_filename_agreement_witness :
    generate_artifact_name "prod" "abc123def456789" = "tfplan-prod-abc123de.tfplan"
    ∧ generate_artifact_name "dev" "abc" = "tfplan-dev-abc.tfplan" :=
  ⟨((c10_plan_filename_agreement "prod" "abc123def456789").2.2.1).trans (by rfl),
   (c10_plan_filename_agreement "dev" "abc").2.2.2 (by decide)⟩

/-- C3 counterexample: `verify_checksum` on a missing file does not return a
boolean at all — `calculate_checksum` opens the file unconditionally, so the
`FileNotFoundError` escapes (`none` in the embedding) instead of yielding
`false`.  This refutes "returns a boolean and never raises ... returns false
... when the file is missing" at the concrete input of an empty filesystem
and path `missing.tfplan`. -/
theorem c3_verify_missing_counterexample :
    verify_checksum (fun _ => "") ([] : FS) "missing.tfplan" "abc" = none := by
  rfl

/-- C3 (amended): on an existing file, `verify_checksum` returns exactly the
comparison of the recomputed digest with the expected string — so any
mismatch on an existing file returns false and
`verify(path, checksum(path))` holds for every existing file — but on a
missing file `verify_checksum` propagates the file-open exception instead of
returning false. -/
theorem c3_verify_amended (hash : FileContent → String) (fs : FS) (p : String)
    (expected : String) (content : FileContent) :
    (fs.lookup p = some content →
      verify_checksum hash fs p expected = some (hash content == expected))
    ∧ (fs.lookup p = some content →
      verify_checksum hash fs p (hash content) = some true)
    ∧ (∀ c, calculate_checksum hash fs p = some c →
      verify_checksum hash fs p c = some true)
    ∧ (fs.lookup p = none → verify_checksum hash fs p expected = none) := by
  refine ⟨fun h => ?_, fun h => ?_, fun c h => ?_, fun h => ?_⟩
  · simp [verify_checksum, calculate_checksum, h]
  · simp [verify_checksum, calculate_checksum, h]
  · simp [verify_checksum, h]
  · simp [verify_checksum, calculate_checksum, h]

/-- Witness for C3 (amended) on a one-file filesystem with a digest function
returning `"d0"`: matching verify is `some true`, mismatching is
`some false`, missing file is `none`. -/
theorem c3_verify_amended_witness :
    verify_checksum (fun _ => "d0") [("a.tfplan", [1, 2])] "a.tfplan" "zz"
        = some false
    ∧ verify_checksum (fun _ => "d0") [("a.tfplan", [1, 2])] "a.tfplan" "d0"
        = some true
    ∧ verify_checksum (fun _ => "d0") [("a.tfplan", [1, 2])] "gone.tfplan" "d0"
        = none :=
  ⟨((c3_verify_amended (fun _ => "d0") [("a.tfplan", [1, 2])]
      "a.tfplan" "zz" [1, 2]).1 (by rfl)).trans (by rfl),
   (c3_verify_amended (fun _ => "d0") [("a.tfplan", [1, 2])]
      "a.tfplan" "zz" [1, 2]).2.1 (by rfl),
   (c3_verify_amended (fun _ => "d0") [("a.tfplan", [1, 2])]
      "gone.tfplan" "d0" [1, 2]).2.2.2 (by rfl)⟩

/-- C6: the `PlanResult` returned by `TerraformExecutor.plan` classifies the
underlying terraform exit code as success exactly for 0 and 2 (every other
code is a failure) and reports changes exactly for code 2. -/
theorem c6_plan_exit_code_classification (hash : FileContent → String)
    (fs : FS) (ex : TerraformExecutor) (outFile : String) (raw : TfRun) :
    (planModel hash fs ex outFile raw).success
      = (raw.exit_code == 0 || raw.exit_code == 2)
    ∧ (planModel hash fs ex outFile raw).has_changes = (raw.exit_code == 2) := by
  constructor
  · by_cases h0 : raw.exit_code = 0 <;> by_cases h2 : raw.exit_code = 2 <;>
      simp [planModel, PlanResult.success, h0, h2]
  · rfl

/-- C5: `HookRunner._run_hook` converts every abnormal subprocess outcome
into a synthesized `HookResult` instead of propagating the exception (the
embedding `runHookOutcome` is total over all three outcome variants): a
timeout yields exit code 124 with `timed_out` set and a stderr describing
the timeout, and any other exception yields exit code 1 with the exception
message as stderr. -/
theorem c5_run_hook_exception_handling (h : Hook) (phase : HookPhase)
    (out msg : String) :
    (runHookOutcome h phase (ExecOutcome.timedOut out)).exit_code = 124
    ∧ (runHookOutcome h phase (ExecOutcome.timedOut out)).timed_out = true
    ∧ (runHookOutcome h phase (ExecOutcome.timedOut out)).stderr
        = "Hook timed out after " ++ toString h.timeout ++ " seconds"
    ∧ (runHookOutcome h phase (ExecOutcome.timedOut out)).stdout = out
    ∧ (runHookOutcome h phase (ExecOutcome.raised msg)).exit_code = 1
    ∧ (runHookOutcome h phase (ExecOutcome.raised msg)).stderr = msg
    ∧ (runHookOutcome h phase (ExecOutcome.raised msg)).timed_out = false :=
  ⟨rfl, rfl, rfl, rfl, rfl, rfl, rfl⟩

/-- C9: `HookContext.to_env` is pure and total (a function of the context
alone), its key vector is exactly the eleven base keys plus
`TF_BD_PLAN_FILE` / `TF_BD_HAS_CHANGES` present exactly when the
corresponding field is set, and boolean fields render as the lowercase
strings `true` / `false`. -/
theorem c9_to_env_contract (c : HookContext) :
    (c.to_env.map Prod.fst
      = ["TF_BD_PHASE", "TF_BD_ENVIRONMENT", "TF_BD_OPERATION",
         "TF_BD_IS_ROLLBACK", "TF_BD_SHA", "TF_BD_REF", "TF_BD_ACTOR",
         "TF_BD_PR_NUMBER", "TF_BD_PARAMS", "TF_BD_WORKING_DIR",
         "TF_BD_IS_PRODUCTION"]
        ++ (match c.plan_file with
            | some _ => ["TF_BD_PLAN_FILE"]
            | none => [])
        ++ (match c.has_changes with
            | some _ => ["TF_BD_HAS_CHANGES"]
            | none => []))
    ∧ c.to_env.lookup "TF_BD_IS_ROLLBACK"
        = some (if c.is_rollback then "true" else "false")
    ∧ c.to_env.lookup "TF_BD_IS_PRODUCTION"
        = some (if c.is_production then "true" else "false")
    ∧ c.to_env.lookup "TF_BD_PLAN_FILE" = c.plan_file
    ∧ c.to_env.lookup "TF_BD_HAS_CHANGES"
        = c.has_changes.map (fun b => if b then "true" else "false") := by
  rcases c with ⟨ph, env, op, rb, sha, ref, actor, pr, params, wd, prod, pf, hc⟩
  cases pf <;> cases hc <;>
    simp [HookContext.to_env, List.lookup, pyBoolStr]

/-- C4: the condition gate of the hook runner — `always` runs for every
operation, `plan-only` exactly under operation `plan`, `apply-only` exactly
under `apply` or `rollback`, `rollback-only` exactly when the context is a
rollback, and any unrecognized condition runs (fail open); a hook whose
condition is not met contributes a skipped result with a human-readable
reason, which never counts as a failure, and the phase continues past it. -/
theorem c4_condition_matrix (oracle : Hook → ExecOutcome) (phase : HookPhase)
    (ctx : HookContext) (h : Hook) (rest : List Hook) :
    shouldRun { h with condition := "always" } ctx = true
    ∧ shouldRun { h with condition := "plan-only" } ctx
        = (ctx.operation == "plan")
    ∧ shouldRun { h with condition := "apply-only" } ctx
        = (ctx.operation == "apply" || ctx.operation == "rollback")
    ∧ shouldRun { h with condition := "rollback-only" } ctx = ctx.is_rollback
    ∧ (h.condition ≠ "always" → h.condition ≠ "plan-only" →
        h.condition ≠ "apply-only" → h.condition ≠ "rollback-only" →
        shouldRun h ctx = true)
    ∧ (shouldRun h ctx = false →
        runPhaseLoop oracle phase ctx (h :: rest)
          = skipResult h phase ctx :: runPhaseLoop oracle phase ctx rest)
    ∧ (skipResult h phase ctx).skipped = true
    ∧ (skipResult h phase ctx).failed = false
    ∧ (skipResult h phase ctx).skip_reason
        = some ("Condition \x27" ++ h.condition
            ++ "\x27 not met for operation \x27" ++ ctx.operation ++ "\x27") := by
  refine ⟨rfl, by simp [shouldRun], by simp [shouldRun], by simp [shouldRun],
    fun h1 h2 h3 h4 => ?_, fun hs => ?_, rfl, rfl, rfl⟩
  · simp [shouldRun, h1, h2, h3, h4]
  · simp [runPhaseLoop, hs]

/-- Witness for C4: a `plan-only` hook under an apply-operation context is
skipped with the interpolated reason and does not fail, an unrecognized
condition `weird` runs, and the loop past the skipped hook still reaches the
next hook. -/
theorem c4_condition_matrix_witness :
    shouldRun ⟨"t", "echo", "plan-only", true, 600, [], none⟩
        ⟨.prePlan, "dev", "apply", false, "s", "r", "a", "1", "", ".", false,
          none, none⟩ = false
    ∧ shouldRun ⟨"t", "echo", "weird", true, 600, [], none⟩
        ⟨.prePlan, "dev", "apply", false, "s", "r", "a", "1", "", ".", false,
          none, none⟩ = true
    ∧ runPhaseLoop (fun _ => ExecOutcome.completed 0 "" "") .prePlan
        ⟨.prePlan, "dev", "apply", false, "s", "r", "a", "1", "", ".", false,
          none, none⟩
        [⟨"t", "echo", "plan-only", true, 600, [], none⟩,
         ⟨"u", "echo", "always", true, 600, [], none⟩]
      = skipResult ⟨"t", "echo", "plan-only", true, 600, [], none⟩ .prePlan
          ⟨.prePlan, "dev", "apply", false, "s", "r", "a", "1", "", ".", false,
            none, none⟩
        :: runPhaseLoop (fun _ => ExecOutcome.completed 0 "" "") .prePlan
            ⟨.prePlan, "dev", "apply", false, "s", "r", "a", "1", "", ".", false,
              none, none⟩
            [⟨"u", "echo", "always", true, 600, [], none⟩]
    ∧ (skipResult ⟨"t", "echo", "plan-only", true, 600, [], none⟩ .prePlan
        ⟨.prePlan, "dev", "apply", false, "s", "r", "a", "1", "", ".", false,
          none, none⟩).failed = false :=
  ⟨by decide,
   (c4_condition_matrix (fun _ => ExecOutcome.completed 0 "" "") .prePlan
      ⟨.prePlan, "dev", "apply", false, "s", "r", "a", "1", "", ".", false,
        none, none⟩
      ⟨"t", "echo", "weird", true, 600, [], none⟩ []).2.2.2.2.1
     (by decide) (by decide) (by decide) (by decide),
   (c4_condition_matrix (fun _ => ExecOutcome.completed 0 "" "") .prePlan
      ⟨.prePlan, "dev", "apply", false, "s", "r", "a", "1", "", ".", false,
        none, none⟩
      ⟨"t", "echo", "plan-only", true, 600, [], none⟩
      [⟨"u", "echo", "always", true, 600, [], none⟩]).2.2.2.2.2.1
     (by decide),
   (c4_condition_matrix (fun _ => ExecOutcome.completed 0 "" "") .prePlan
      ⟨.prePlan, "dev", "apply", false, "s", "r", "a", "1", "", ".", false,
        none, none⟩
      ⟨"t", "echo", "plan-only", true, 600, [], none⟩ []).2.2.2.2.2.2.2.1⟩

/-- The phase loop distributes over a prefix in which no hook triggers the
blocking `break`. -/
theorem runPhaseLoop_append (oracle : Hook → ExecOutcome) (phase : HookPhase)
    (ctx : HookContext) (pre rest : List Hook)
    (hpre : ∀ h ∈ pre, blocks oracle phase ctx h = false) :
    runPhaseLoop oracle phase ctx (pre ++ rest)
      = runPhaseLoop oracle phase ctx pre ++ runPhaseLoop oracle phase ctx rest := by
  induction pre with
  | nil => simp [runPhaseLoop]
  | cons h t ih =>
    have hb : blocks oracle phase ctx h = false := hpre h (by simp)
    have ht : ∀ h' ∈ t, blocks oracle phase ctx h' = false := fun h' hh' =>
      hpre h' (by simp [hh'])
    by_cases hs : shouldRun h ctx = true
    · have hnb : ((runHook oracle h phase).failed && h.fail_on_error) = false := by
        simpa [blocks, hs, Bool.and_assoc] using hb
      simp [runPhaseLoop, hs, hnb, ih ht]
    · simp [runPhaseLoop, hs, ih ht]

/-- C2: the phase loop stops at the first blocking failure — with no blocking
hook in the prefix, a hook that runs, fails and has `fail_on_error` makes its
result the last element and no later hook contributes (the returned list does
not depend on the hooks after it); a failing hook with `fail_on_error` false
is followed by the results of the remaining hooks.  `run_phase` itself is the
loop applied to the configured hooks of the phase. -/
theorem c2_run_phase_blocking (oracle : Hook → ExecOutcome) (phase : HookPhase)
    (ctx : HookContext) (pre post : List Hook) (h : Hook)
    (hpre : ∀ h' ∈ pre, blocks oracle phase ctx h' = false) :
    (blocks oracle phase ctx h = true →
      runPhaseLoop oracle phase ctx (pre ++ h :: post)
        = runPhaseLoop oracle phase ctx pre ++ [runHook oracle h phase])
    ∧ (shouldRun h ctx = true → (runHook oracle h phase).failed = true →
        h.fail_on_error = false →
        runPhaseLoop oracle phase ctx (pre ++ h :: post)
          = runPhaseLoop oracle phase ctx pre
            ++ runHook oracle h phase :: runPhaseLoop oracle phase ctx post)
    ∧ (∀ hc : HooksConfig,
        run_phase oracle (some hc) phase ctx
          = runPhaseLoop oracle phase ctx (getHooksForPhase hc phase)) := by
  refine ⟨fun hblk => ?_, fun hs hf hnb => ?_, fun hc => rfl⟩
  · rw [runPhaseLoop_append oracle phase ctx pre (h :: post) hpre]
    have h3 := hblk
    simp only [blocks, Bool.and_eq_true] at h3
    obtain ⟨⟨hs, hf⟩, hfe⟩ := h3
    simp [runPhaseLoop, hs, hf, hfe]
  · rw [runPhaseLoop_append oracle phase ctx pre (h :: post) hpre]
    simp [runPhaseLoop, hs, hf, hnb]

/-- Witness for C2: with a skipped hook ahead of it, a failing blocking hook
named `bad` truncates the phase (the later hook `good` contributes nothing),
while the same failure with `fail_on_error` false lets `good` run. -/
theorem c2_run_phase_blocking_witness :
    runPhaseLoop
        (fun hk => if hk.name == "bad" then ExecOutcome.completed 1 "" "err"
          else ExecOutcome.completed 0 "ok" "")
        .preInit
        ⟨.preInit, "dev", "plan", false, "s", "r", "a", "1", "", ".", false,
          none, none⟩
        ([⟨"skipme", "echo", "apply-only", true, 600, [], none⟩]
          ++ ⟨"bad", "exit 1", "always", true, 600, [], none⟩
            :: [⟨"good", "echo", "always", true, 600, [], none⟩])
      = runPhaseLoop
          (fun hk => if hk.name == "bad" then ExecOutcome.completed 1 "" "err"
            else ExecOutcome.completed 0 "ok" "")
          .preInit
          ⟨.preInit, "dev", "plan", false, "s", "r", "a", "1", "", ".", false,
            none, none⟩
          [⟨"skipme", "echo", "apply-only", true, 600, [], none⟩]
        ++ [runHook
            (fun hk => if hk.name == "bad" then ExecOutcome.completed 1 "" "err"
              else ExecOutcome.completed 0 "ok" "")
            ⟨"bad", "exit 1", "always", true, 600, [], none⟩ .preInit]
    ∧ runPhaseLoop
        (fun hk => if hk.name == "bad" then ExecOutcome.completed 1 "" "err"
          else ExecOutcome.completed 0 "ok" "")
        .preInit
        ⟨.preInit, "dev", "plan", false, "s", "r", "a", "1", "", ".", false,
          none, none⟩
        ([] ++ ⟨"bad", "exit 1", "always", false, 600, [], none⟩
          :: [⟨"good", "echo", "always", true, 600, [], none⟩])
      = []
        ++ runHook
            (fun hk => if hk.name == "bad" then ExecOutcome.completed 1 "" "err"
              else ExecOutcome.completed 0 "ok" "")
            ⟨"bad", "exit 1", "always", false, 600, [], none⟩ .preInit
          :: runPhaseLoop
              (fun hk => if hk.name == "bad" then ExecOutcome.completed 1 "" "err"
                else ExecOutcome.completed 0 "ok" "")
              .preInit
              ⟨.preInit, "dev", "plan", false, "s", "r", "a", "1", "", ".", false,
                none, none⟩
              [⟨"good", "echo", "always", true, 600, [], none⟩] :=
  ⟨(c2_run_phase_blocking
      (fun hk => if hk.name == "bad" then ExecOutcome.completed 1 "" "err"
        else ExecOutcome.completed 0 "ok" "")
      .preInit
      ⟨.preInit, "dev", "plan", false, "s", "r", "a", "1", "", ".", false,
        none, none⟩
      [⟨"skipme", "echo", "apply-only", true, 600, [], none⟩]
      [⟨"good", "echo", "always", true, 600, [], none⟩]
      ⟨"bad", "exit 1", "always", true, 600, [], none⟩
      (by decide)).1 (by decide),
   (c2_run_phase_blocking
      (fun hk => if hk.name == "bad" then ExecOutcome.completed 1 "" "err"
        else ExecOutcome.completed 0 "ok" "")
      .preInit
      ⟨.preInit, "dev", "plan", false, "s", "r", "a", "1", "", ".", false,
        none, none⟩
      []
      [⟨"good", "echo", "always", true, 600, [], none⟩]
      ⟨"bad", "exit 1", "always", false, 600, [], none⟩
      (by decide)).2.1 (by decide) (by decide) (by decide)⟩

/-- C8: for every environment and each of the five categories, the resolved
list is the spec's resolution rule — the defaults list included exactly when
`inherit` is true for the category (defaulting to true when the environment
omits the category, and the category's own flag when it specifies it),
followed by the environment-specific list, in order, with no deduplication
or reordering — and when `defaults` is absent entirely inheritance
contributes nothing. -/
theorem c8_resolution_rule (c : TerraformBranchDeployConfig)
    (environment : String) (envCfg : EnvironmentConfig)
    (henv : c.get_environment environment = some envCfg) :
    c.resolve_var_files environment
      = some (specResolve
          ((c.defaults.bind DefaultsConfig.var_files).map PathsConfig.paths)
          (envCfg.var_files.map (fun pc => (pc.inherit, pc.paths))))
    ∧ c.resolve_backend_configs environment
      = some (specResolve
          ((c.defaults.bind DefaultsConfig.backend_configs).map PathsConfig.paths)
          (envCfg.backend_configs.map (fun pc => (pc.inherit, pc.paths))))
    ∧ (∀ t : ArgType,
        c.resolve_args environment t
          = some (specResolve
              ((c.defaults.bind (fun d => d.argsOf t)).map ArgsConfig.args)
              ((envCfg.argsOf t).map (fun a => (a.inherit, a.args)))))
    ∧ (c.defaults = none →
        c.resolve_var_files environment
          = some (match envCfg.var_files with
              | some pc => pc.paths
              | none => [])) := by
  refine ⟨?_, ?_, fun t => ?_, fun hnd => ?_⟩
  · simp only [TerraformBranchDeployConfig.resolve_var_files, henv]
    rcases hd : c.defaults with _ | d
    · rcases hv : envCfg.var_files with _ | pc <;> simp [specResolve, hv]
    · rcases hd2 : d.var_files with _ | pc0 <;>
        rcases hv : envCfg.var_files with _ | pc <;>
          simp [specResolve, hd2, hv]
  · simp only [TerraformBranchDeployConfig.resolve_backend_configs, henv]
    rcases hd : c.defaults with _ | d
    · rcases hv : envCfg.backend_configs with _ | pc <;> simp [specResolve, hv]
    · rcases hd2 : d.backend_configs with _ | pc0 <;>
        rcases hv : envCfg.backend_configs with _ | pc <;>
          simp [specResolve, hd2, hv]
  · simp only [TerraformBranchDeployConfig.resolve_args, henv]
    rcases hd : c.defaults with _ | d
    · rcases hv : envCfg.argsOf t with _ | a <;> simp [specResolve, hv]
    · rcases hd2 : d.argsOf t with _ | a0 <;>
        rcases hv : envCfg.argsOf t with _ | a <;>
          simp [specResolve, hd2, hv]
  · simp only [TerraformBranchDeployConfig.resolve_var_files, henv, hnd]
    rcases hv : envCfg.var_files with _ | pc <;> simp [hv]

/-- Witness for C8 on the spec's example: defaults carry
`plan-args ["-compact-warnings"]`, environment `prod` overrides with
`inherit: false, ["-parallelism=30"]` (defaults excluded) and environment
`dev` has no override (defaults inherited). -/
theorem c8_resolution_rule_witness :
    TerraformBranchDeployConfig.resolve_args
        { default_environment := "dev",
          production_environments := ["prod"],
          environments :=
            [("prod", { plan_args := some ⟨false, ["-parallelism=30"]⟩ }),
             ("dev", {})],
          defaults := some { plan_args := some ⟨true, ["-compact-warnings"]⟩ } }
        "prod" ArgType.plan_args
      = some ["-parallelism=30"]
    ∧ TerraformBranchDeployConfig.resolve_args
        { default_environment := "dev",
          production_environments := ["prod"],
          environments :=
            [("prod", { plan_args := some ⟨false, ["-parallelism=30"]⟩ }),
             ("dev", {})],
          defaults := some { plan_args := some ⟨true, ["-compact-warnings"]⟩ } }
        "dev" ArgType.plan_args
      = some ["-compact-warnings"] :=
  ⟨((c8_resolution_rule
      { default_environment := "dev",
        production_environments := ["prod"],
        environments :=
          [("prod", { plan_args := some ⟨false, ["-parallelism=30"]⟩ }),
           ("dev", {})],
        defaults := some { plan_args := some ⟨true, ["-compact-warnings"]⟩ } }
      "prod"
      { plan_args := some ⟨false, ["-parallelism=30"]⟩ }
      (by rfl)).2.2.1 ArgType.plan_args).trans (by rfl),
   ((c8_resolution_rule
      { default_environment := "dev",
        production_environments := ["prod"],
        environments :=
          [("prod", { plan_args := some ⟨false, ["-parallelism=30"]⟩ }),
           ("dev", {})],
        defaults := some { plan_args := some ⟨true, ["-compact-warnings"]⟩ } }
      "dev" {} (by rfl)).2.2.1 ArgType.plan_args).trans (by rfl)⟩

/-- C1: in `_apply_with_plan`, with the plan file present and an expected
checksum from `TF_BD_PLAN_CHECKSUM`, a recomputed checksum that differs from
the expected value terminates the step with exit code 1 (the security
failure reason is posted) and starts no terraform apply subprocess — the
mismatch blocks outright, it never merely warns. -/
theorem c1_checksum_mismatch_blocks_apply (hash : FileContent → String)
    (fs : FS) (ex : TerraformExecutor) (p : String) (content : FileContent)
    (expected : String) (tfbdEnvironment : Option String) (logsUrl : String)
    (raw : TfRun)
    (hfile : fs.lookup p = some content)
    (hmismatch : hash content ≠ expected) :
    (applyWithPlan hash fs ex p (some expected) tfbdEnvironment logsUrl
        raw).exitCode = some 1
    ∧ (applyWithPlan hash fs ex p (some expected) tfbdEnvironment logsUrl
        raw).commands = []
    ∧ (applyWithPlan hash fs ex p (some expected) tfbdEnvironment logsUrl
        raw).failureReason
        = some (checksumMismatchMsg (tfbdEnvironment.getD "dev")) := by
  have hv : verify_checksum hash fs p expected = some false := by
    simp [verify_checksum, calculate_checksum, hfile, hmismatch]
  refine ⟨?_, ?_, ?_⟩ <;> simp [applyWithPlan, hv]

/-- Witness for C1: a one-file filesystem whose digest is `aaa` against the
expected checksum `bbb` — exit 1, no terraform invocation. -/
theorem c1_checksum_mismatch_blocks_apply_witness :
    (applyWithPlan (fun _ => "aaa") [("w/tfplan-dev-abc.tfplan", [7])]
        { working_directory := "w" } "w/tfplan-dev-abc.tfplan" (some "bbb")
        none "" ⟨0, "", ""⟩).exitCode = some 1
    ∧ (applyWithPlan (fun _ => "aaa") [("w/tfplan-dev-abc.tfplan", [7])]
        { working_directory := "w" } "w/tfplan-dev-abc.tfplan" (some "bbb")
        none "" ⟨0, "", ""⟩).commands = [] :=
  ⟨(c1_checksum_mismatch_blocks_apply (fun _ => "aaa")
      [("w/tfplan-dev-abc.tfplan", [7])] { working_directory := "w" }
      "w/tfplan-dev-abc.tfplan" [7] "bbb" none "" ⟨0, "", ""⟩
      (by rfl) (by decide)).1,
   (c1_checksum_mismatch_blocks_apply (fun _ => "aaa")
      [("w/tfplan-dev-abc.tfplan", [7])] { working_directory := "w" }
      "w/tfplan-dev-abc.tfplan" [7] "bbb" none "" ⟨0, "", ""⟩
      (by rfl) (by decide)).2.1⟩

/-- C7: the apply paths — a supplied, existing plan file is applied as the
sole trailing argument with no var-file flags and no resolved apply
arguments; `-input=false -auto-approve` is always included; `_handle_apply`
dispatches an existing plan file to `_apply_with_plan`, applies directly
with resolved var-files and apply arguments when no plan file exists and the
operation is a rollback, and when no plan file exists and the operation is
not a rollback it exits with code 1, runs no apply, and posts the
run-plan-first guidance. -/
theorem c7_apply_paths (hash : FileContent → String) (fs : FS)
    (ex : TerraformExecutor) (p : String) (planFile : Option String)
    (environment sha workingDir : String)
    (tfbdIsRollback tfbdPlanChecksum tfbdEnvironment : Option String)
    (logsUrl : String) (raw : TfRun) :
    (fs.pathExists p = true →
      applyCmd ex (some p) fs
        = ["terraform", "apply", "-input=false", "-auto-approve", p])
    ∧ "-input=false" ∈ applyCmd ex planFile fs
    ∧ "-auto-approve" ∈ applyCmd ex planFile fs
    ∧ (fs.pathExists
          (joinPath workingDir (handleApplyPlanFilename environment sha)) = true →
        handleApply hash fs ex environment sha workingDir tfbdIsRollback
            tfbdPlanChecksum tfbdEnvironment logsUrl raw
          = applyWithPlan hash fs ex
              (joinPath workingDir (handleApplyPlanFilename environment sha))
              tfbdPlanChecksum tfbdEnvironment logsUrl raw)
    ∧ (fs.pathExists
          (joinPath workingDir (handleApplyPlanFilename environment sha)) = false →
        (handleApply hash fs ex environment sha workingDir (some "true")
            tfbdPlanChecksum tfbdEnvironment logsUrl raw).commands
          = [["terraform", "apply", "-input=false", "-auto-approve"]
              ++ varFileFlags ex.var_files ++ ex.apply_args])
    ∧ (fs.pathExists
          (joinPath workingDir (handleApplyPlanFilename environment sha)) = false →
        (handleApply hash fs ex environment sha workingDir none
            tfbdPlanChecksum tfbdEnvironment logsUrl raw).commands = []
        ∧ (handleApply hash fs ex environment sha workingDir none
            tfbdPlanChecksum tfbdEnvironment logsUrl raw).exitCode = some 1
        ∧ (handleApply hash fs ex environment sha workingDir none
            tfbdPlanChecksum tfbdEnvironment logsUrl raw).failureReason
            = some (noPlanMsg environment sha)) := by
  refine ⟨fun hp => ?_, ?_, ?_, fun hex => ?_, fun hmiss => ?_, fun hmiss => ?_⟩
  · simp [applyCmd, hp]
  · rcases planFile with _ | q
    · simp [applyCmd]
    · by_cases hq : fs.pathExists q = true <;> simp [applyCmd, hq]
  · rcases planFile with _ | q
    · simp [applyCmd]
    · by_cases hq : fs.pathExists q = true <;> simp [applyCmd, hq]
  · simp [handleApply, hex]
  · have hr : (pyLower "true" == "true") = true := by decide
    by_cases hs : (raw.exit_code == 0) = true <;>
      simp [handleApply, hmiss, Option.getD, hr, hs, applyModel, applyCmd,
        ApplyResult.success]
  · have hr : (pyLower "false" == "true") = false := by decide
    refine ⟨?_, ?_, ?_⟩ <;> simp [handleApply, hmiss, Option.getD, hr]

/-- Witness for C7: an existing plan file is the sole trailing argument
despite configured var-files and apply args; on an empty filesystem a
rollback applies directly with the resolved var-files and apply args, and a
non-rollback exits 1 with no apply. -/
theorem c7_apply_paths_witness :
    applyCmd ⟨"w", ["d.tfvars"], [], [], [], ["-lock=false"]⟩
        (some "w/p.tfplan") [("w/p.tfplan", [1])]
      = ["terraform", "apply", "-input=false", "-auto-approve", "w/p.tfplan"]
    ∧ (handleApply (fun _ => "d") [] ⟨"w", ["d.tfvars"], [], [], [], ["-lock=false"]⟩
        "dev" "abc" "w" (some "true") none none "" ⟨0, "", ""⟩).commands
      = [["terraform", "apply", "-input=false", "-auto-approve"]
          ++ varFileFlags ["d.tfvars"] ++ ["-lock=false"]]
    ∧ (handleApply (fun _ => "d") [] ⟨"w", ["d.tfvars"], [], [], [], ["-lock=false"]⟩
        "dev" "abc" "w" none none none "" ⟨0, "", ""⟩).commands = []
    ∧ (handleApply (fun _ => "d") [] ⟨"w", ["d.tfvars"], [], [], [], ["-lock=false"]⟩
        "dev" "abc" "w" none none none "" ⟨0, "", ""⟩).exitCode = some 1 :=
  ⟨(c7_apply_paths (fun _ => "d") [("w/p.tfplan", [1])]
      ⟨"w", ["d.tfvars"], [], [], [], ["-lock=false"]⟩
      "w/p.tfplan" none "dev" "abc" "w" none none none "" ⟨0, "", ""⟩).1
      (by decide),
   (c7_apply_paths (fun _ => "d") []
      ⟨"w", ["d.tfvars"], [], [], [], ["-lock=false"]⟩
      "w/p.tfplan" none "dev" "abc" "w" none none none "" ⟨0, "", ""⟩).2.2.2.2.1
      (by decide),
   ((c7_apply_paths (fun _ => "d") []
      ⟨"w", ["d.tfvars"], [], [], [], ["-lock=false"]⟩
      "w/p.tfplan" none "dev" "abc" "w" none none none "" ⟨0, "", ""⟩).2.2.2.2.2
      (by decide)).1,
   ((c7_apply_paths (fun _ => "d") []
      ⟨"w", ["d.tfvars"], [], [], [], ["-lock=false"]⟩
      "w/p.tfplan" none "dev" "abc" "w" none none none "" ⟨0, "", ""⟩).2.2.2.2.2
      (by decide)).2.1⟩

end TfBranchDeploy
